import Mathlib

/-!
# Verification of the `claude-speaks` TTS cache and notification hooks

Shallow embedding of `src/utils/tts/cached_tts.py` and `src/notification.py`:
the cache-key computation (MD5 over the UTF-8 bytes of the message text), the
speech dispatcher `speak_with_cache`, the CLI entry point, and the notification
hook's `main`, together with theorems settling the specification's claims.

Machine integers are modelled as `Nat` with explicit `% 2^32` where the Python
code relies on 32-bit wraparound inside `hashlib.md5`; environment lookups,
filesystem contents and subprocess outcomes are fields of explicit environment
records; Python exceptions that escape a function are modelled with `Except`.
-/

set_option maxRecDepth 100000

/-! ## Bytes and 32-bit arithmetic -/

/-- A byte string (each entry is a byte value `< 256`). -/
abbrev Bytes := List Nat

/-- 32-bit truncation, as used throughout the MD5 compression function. -/
def m32 (n : Nat) : Nat := n % 4294967296

/-- Left-rotation of a 32-bit word by `s` bits. -/
def rotl32 (x s : Nat) : Nat :=
  m32 ((x <<< s) ||| (x >>> (32 - s)))

/-- Bitwise complement of a 32-bit word. -/
def not32 (x : Nat) : Nat := x ^^^ 4294967295

/-! ## MD5 (`hashlib.md5`), embedded from RFC 1321 as used by `get_cache_key` -/

/-- The 64 sine-derived MD5 round constants `K[i]` (RFC 1321). -/
def md5K : List Nat :=
  [0xd76aa478, 0xe8c7b756, 0x242070db, 0xc1bdceee,
   0xf57c0faf, 0x4787c62a, 0xa8304613, 0xfd469501,
   0x698098d8, 0x8b44f7af, 0xffff5bb1, 0x895cd7be,
   0x6b901122, 0xfd987193, 0xa679438e, 0x49b40821,
   0xf61e2562, 0xc040b340, 0x265e5a51, 0xe9b6c7aa,
   0xd62f105d, 0x02441453, 0xd8a1e681, 0xe7d3fbc8,
   0x21e1cde6, 0xc33707d6, 0xf4d50d87, 0x455a14ed,
   0xa9e3e905, 0xfcefa3f8, 0x676f02d9, 0x8d2a4c8a,
   0xfffa3942, 0x8771f681, 0x6d9d6122, 0xfde5380c,
   0xa4beea44, 0x4bdecfa9, 0xf6bb4b60, 0xbebfbc70,
   0x289b7ec6, 0xeaa127fa, 0xd4ef3085, 0x04881d05,
   0xd9d4d039, 0xe6db99e5, 0x1fa27cf8, 0xc4ac5665,
   0xf4292244, 0x432aff97, 0xab9423a7, 0xfc93a039,
   0x655b59c3, 0x8f0ccc92, 0xffeff47d, 0x85845dd1,
   0x6fa87e4f, 0xfe2ce6e0, 0xa3014314, 0x4e0811a1,
   0xf7537e82, 0xbd3af235, 0x2ad7d2bb, 0xeb86d391]

/-- The per-round left-rotation amounts `s[i]` (RFC 1321). -/
def md5S : List Nat :=
  [7, 12, 17, 22, 7, 12, 17, 22, 7, 12, 17, 22, 7, 12, 17, 22,
   5,  9, 14, 20, 5,  9, 14, 20, 5,  9, 14, 20, 5,  9, 14, 20,
   4, 11, 16, 23, 4, 11, 16, 23, 4, 11, 16, 23, 4, 11, 16, 23,
   6, 10, 15, 21, 6, 10, 15, 21, 6, 10, 15, 21, 6, 10, 15, 21]

/-- The nonlinear round function `F`, `G`, `H`, `I` depending on the round. -/
def md5F (i b c d : Nat) : Nat :=
  if i < 16 then (b &&& c) ||| (not32 b &&& d)
  else if i < 32 then (d &&& b) ||| (not32 d &&& c)
  else if i < 48 then b ^^^ c ^^^ d
  else c ^^^ (b ||| not32 d)

/-- The message-word schedule index `g` for round `i`. -/
def md5G (i : Nat) : Nat :=
  if i < 16 then i
  else if i < 32 then (5 * i + 1) % 16
  else if i < 48 then (3 * i + 5) % 16
  else (7 * i) % 16

/-- The four 32-bit chaining registers of the MD5 state. -/
structure MD5State where
  a : Nat
  b : Nat
  c : Nat
  d : Nat
deriving DecidableEq

/-- The MD5 initial chaining value. -/
def md5Init : MD5State :=
  ⟨0x67452301, 0xefcdab89, 0x98badcfe, 0x10325476⟩

/-- One of the 64 MD5 operations on the register quadruple. -/
def md5Step (M : List Nat) (st : MD5State) (i : Nat) : MD5State :=
  let f := md5F i st.b st.c st.d
  let tmp := m32 (st.a + f + md5K.getD i 0 + M.getD (md5G i) 0)
  ⟨st.d, m32 (st.b + rotl32 tmp (md5S.getD i 0)), st.b, st.c⟩

/-- Process one 512-bit block, given as sixteen 32-bit little-endian words. -/
def md5Block (st : MD5State) (M : List Nat) : MD5State :=
  let e := (List.range 64).foldl (md5Step M) st
  ⟨m32 (st.a + e.a), m32 (st.b + e.b), m32 (st.c + e.c), m32 (st.d + e.d)⟩

/-- Group a padded byte string into 32-bit little-endian words. -/
def md5Words : List Nat → List Nat
  | b0 :: b1 :: b2 :: b3 :: rest =>
      (b0 + 256 * b1 + 65536 * b2 + 16777216 * b3) :: md5Words rest
  | _ => []

/-- Group the word stream into 16-word blocks. -/
def md5Blocks : List Nat → List (List Nat)
  | w0 :: w1 :: w2 :: w3 :: w4 :: w5 :: w6 :: w7 ::
    w8 :: w9 :: w10 :: w11 :: w12 :: w13 :: w14 :: w15 :: rest =>
      [w0, w1, w2, w3, w4, w5, w6, w7, w8, w9, w10, w11, w12, w13, w14, w15] ::
        md5Blocks rest
  | _ => []

/-- MD5 padding: a `0x80` byte, zeros to 56 mod 64, then the 64-bit
little-endian bit length of the original message. -/
def md5Pad (msg : Bytes) : Bytes :=
  let len := msg.length
  let z := (119 - len % 64) % 64
  let bitLen := (8 * len) % 18446744073709551616
  msg ++ [0x80] ++ List.replicate z 0 ++
    (List.range 8).map (fun i => (bitLen >>> (8 * i)) % 256)

/-- Serialize a 32-bit word as four little-endian bytes. -/
def wordLE (w : Nat) : Bytes :=
  [w % 256, (w >>> 8) % 256, (w >>> 16) % 256, (w >>> 24) % 256]

/-- The 16-byte MD5 digest of a byte string. -/
def md5 (msg : Bytes) : Bytes :=
  let st := (md5Blocks (md5Words (md5Pad msg))).foldl md5Block md5Init
  wordLE st.a ++ wordLE st.b ++ wordLE st.c ++ wordLE st.d

/-- A hexadecimal digit character, lowercase as in Python's `hexdigest`. -/
def hexDigit (n : Nat) : Char :=
  match n with
  | 0 => '0' | 1 => '1' | 2 => '2' | 3 => '3'
  | 4 => '4' | 5 => '5' | 6 => '6' | 7 => '7'
  | 8 => '8' | 9 => '9' | 10 => 'a' | 11 => 'b'
  | 12 => 'c' | 13 => 'd' | 14 => 'e' | _ => 'f'

/-- Render bytes as lowercase hexadecimal characters, two per byte. -/
def hexChars : Bytes → List Char
  | [] => []
  | b :: r => hexDigit (b / 16) :: hexDigit (b % 16) :: hexChars r

/-- UTF-8 encoding of a single code point (`str.encode('utf-8')`). -/
def utf8Char (c : Nat) : Bytes :=
  if c < 0x80 then [c]
  else if c < 0x800 then
    [0xc0 ||| (c >>> 6), 0x80 ||| (c &&& 0x3f)]
  else if c < 0x10000 then
    [0xe0 ||| (c >>> 12), 0x80 ||| ((c >>> 6) &&& 0x3f), 0x80 ||| (c &&& 0x3f)]
  else
    [0xf0 ||| (c >>> 18), 0x80 ||| ((c >>> 12) &&& 0x3f),
     0x80 ||| ((c >>> 6) &&& 0x3f), 0x80 ||| (c &&& 0x3f)]

/-- UTF-8 encoding of a string, `text.encode('utf-8')`. -/
def encodeUtf8 (s : String) : Bytes :=
  (s.data.map (fun c => utf8Char c.toNat)).flatten

/-- Embeds `get_cache_key(text)`: the MD5 hex digest of the UTF-8 bytes of `text`
(`cached_tts.py`, lines 41-43). -/
def get_cache_key (text : String) : String :=
  String.mk (hexChars (md5 (encodeUtf8 text)))

/-! ## Environment and filesystem model for `cached_tts.py` -/

/-- The built-in default voice (`'21m00Tcm4TlvDq8ikWAM'`, Rachel). -/
def defaultVoiceId : String := "21m00Tcm4TlvDq8ikWAM"

/-- One process environment / outside world for a `cached_tts.py` run:
which credential variables are set, which sibling TTS scripts exist on disk,
which cache files exist, and how the network, disk and audio players behave.
Playback is a subprocess whose errors `play_audio` catches wholesale, so it is
modelled by its boolean outcome, separately for the first invocation (on the
pre-existing cache file) and the second (after regeneration rewrote the file). -/
structure Env where
  /-- Whether `ELEVENLABS_API_KEY` is set (nonempty). -/
  elevenKey : Bool
  /-- Whether `OPENAI_API_KEY` is set (nonempty). -/
  openaiKey : Bool
  /-- Value of `ELEVENLABS_VOICE_ID`, when set. -/
  voiceIdVar : Option String
  /-- Whether `elevenlabs_tts.py` exists next to the script. -/
  elevenScript : Bool
  /-- Whether `openai_tts.py` exists next to the script. -/
  openaiScript : Bool
  /-- Whether `system_voice_tts.py` exists next to the script. -/
  systemScript : Bool
  /-- Whether `Path.mkdir` for the voice cache directory raises `OSError`. -/
  mkdirFails : Bool
  /-- Which cache file paths currently exist on disk. -/
  cacheFiles : String → Bool
  /-- Outcome of `play_audio` on the pre-existing cached file. -/
  playCached : String → Bool
  /-- Outcome of `play_audio` on the freshly regenerated file. -/
  playGenerated : String → Bool
  /-- The ElevenLabs API response body when the POST returns HTTP 200 and the
  cache write completes; `none` for non-200, network error or write error. -/
  elevenResponse : Option Bytes
  /-- The `python3` executable can be spawned by `subprocess.run`. -/
  python3Present : Bool
  /-- The fallback TTS subprocess completes without `TimeoutExpired` or
  `SubprocessError` (lines 193-201 return the same dictionary either way). -/
  subprocOk : Bool

/-- The effective voice id: `os.getenv('ELEVENLABS_VOICE_ID', default)`. -/
def voiceId (env : Env) : String := env.voiceIdVar.getD defaultVoiceId

/-- A voice-namespaced cache location `cache/{voice}/{key}.mp3`. -/
structure CachePath where
  voice : String
  key : String
deriving DecidableEq

/-- The rendered filesystem path of a cache location. -/
def CachePath.render (p : CachePath) : String :=
  "cache/" ++ p.voice ++ "/" ++ p.key ++ ".mp3"

/-- Embeds `get_cached_audio_path(text)`: cache dir of the current voice plus
`{md5(text)}.mp3` (`cached_tts.py`, lines 46-50). -/
def get_cached_audio_path (env : Env) (text : String) : CachePath :=
  ⟨voiceId env, get_cache_key text⟩

/-- The Python exceptions that can escape `speak_with_cache` uncaught. -/
inductive PyErr where
  /-- An `OSError` from `Path.mkdir` in `get_cache_dir`. -/
  | osError
  /-- A `FileNotFoundError`: `python3` missing when the fallback subprocess is
  spawned (not in the `except (TimeoutExpired, SubprocessError)` clause). -/
  | fileNotFound
deriving DecidableEq

/-- Observable side effects of one `speak_with_cache` run. -/
inductive Event where
  /-- An HTTPS request to the ElevenLabs synthesis API. -/
  | net
  /-- Payload `data` written to the cache file at `path`. -/
  | cacheWrite (path : String) (data : Bytes)
  /-- Player `play_audio` invoked on `path`, with its outcome. -/
  | play (path : String) (ok : Bool)
  /-- The fallback TTS script spawned as a subprocess, with whether it
  completed; its output is never inspected by the caller. -/
  | subproc (script : String) (ok : Bool)
  /-- A file deleted at `path` (the code never emits this). -/
  | deleteFile (path : String)
deriving DecidableEq

/-- Computes `Path(script).stem` for the script names in this repository, all of which
end in `".py"`. -/
def stem (s : String) : String := s.dropRight 3

/-- Embeds `get_tts_script_path()` (`cached_tts.py`, lines 76-100): the first script
in the priority order ElevenLabs > OpenAI > system voice whose credential (if
any) is set and whose file exists. -/
def get_tts_script_path (env : Env) : Option String :=
  if env.elevenKey && env.elevenScript then some "elevenlabs_tts.py"
  else if env.openaiKey && env.openaiScript then some "openai_tts.py"
  else if env.systemScript then some "system_voice_tts.py"
  else none

/-- The result dictionary built by `speak_with_cache` (lines 155-161). -/
structure DispatchResult where
  cache_hit : Bool
  cache_file : Option String
  tts_backend : Option String
  voice_id : Option String
  fallback_used : Bool
deriving DecidableEq

/-- Embeds `generate_and_cache_audio(text, audio_path)` (lines 103-146): requires the
ElevenLabs key, POSTs to the API, and on HTTP 200 writes the response body to
`audio_path`; any non-200 status or exception yields `False`. Returns the
success flag and the emitted effects. -/
def generate_and_cache_audio (env : Env) (audio_path : String) :
    Bool × List Event :=
  if !env.elevenKey then (false, [])
  else
    match env.elevenResponse with
    | some content => (true, [Event.net, Event.cacheWrite audio_path content])
    | none => (false, [Event.net])

/-- Embeds `speak_with_cache(text)` (lines 149-203), with the uncaught-exception
paths made explicit: `Except.error` models a Python exception escaping to the
caller. The second component is the trace of side effects up to the return
(or the escape). -/
def speak_with_cache (env : Env) (text : String) :
    Except PyErr DispatchResult × List Event :=
  if env.mkdirFails then (Except.error PyErr.osError, [])
  else
    let path := (get_cached_audio_path env text).render
    let r0 : DispatchResult :=
      { cache_hit := false, cache_file := some path, tts_backend := none,
        voice_id := none, fallback_used := false }
    let hit := env.cacheFiles path
    -- lines 168-176: the cache-hit block; on playback failure fall through
    let r1 := if hit then
        { r0 with voice_id := some (get_cached_audio_path env text).voice,
                  cache_hit := true, tts_backend := some "cache" }
      else r0
    let ev1 : List Event := if hit then [Event.play path (env.playCached path)] else []
    if hit && env.playCached path then (Except.ok r1, ev1)
    else
      -- lines 178-186: the ElevenLabs block; the backend/voice fields are
      -- assigned before generation is attempted and are never rolled back
      let r2 := if env.elevenKey then
          { r1 with tts_backend := some "elevenlabs", voice_id := some (voiceId env) }
        else r1
      let gen := if env.elevenKey then generate_and_cache_audio env path else (false, [])
      let ev2 := ev1 ++ gen.2
      if env.elevenKey && gen.1 && env.playGenerated path then
        (Except.ok r2, ev2 ++ [Event.play path true])
      else
        let ev3 := if env.elevenKey && gen.1 then ev2 ++ [Event.play path false] else ev2
        -- lines 188-203: the fallback block
        let r3 := { r2 with fallback_used := true }
        match get_tts_script_path env with
        | none => (Except.ok r3, ev3)
        | some script =>
          let r4 := { r3 with tts_backend := some (stem script) }
          if env.python3Present then
            (Except.ok r4, ev3 ++ [Event.subproc script env.subprocOk])
          else (Except.error PyErr.fileNotFound, ev3)

/-- The message the CLI dispatches: all arguments except `--json` occurrences,
joined by single spaces (lines 212-213). -/
def spoken_message (args : List String) : String :=
  String.intercalate " " (args.filter (fun a => a != "--json"))

/-- The `__main__` block of `cached_tts.py` (lines 206-223): `args` is
`sys.argv[1:]`. Returns the process exit code and the `DispatchResult`
objects printed as JSON on stdout. An uncaught exception from
`speak_with_cache` terminates the interpreter with exit code 1 and no output. -/
def cached_tts_cli (env : Env) (args : List String) :
    Nat × List DispatchResult :=
  if args.length > 0 then
    let outputJson := args.contains "--json"
    match speak_with_cache env (spoken_message args) with
    | (Except.ok r, _) =>
        ((if r.tts_backend.isSome then 0 else 1),
         if outputJson then [r] else [])
    | (Except.error _, _) => (1, [])
  else (1, [])


/-! ## Model of `src/notification.py` -/

/-- The metadata dictionary built by `announce_notification`
(`notification.py`, lines 60-115). The fields merged in from the TTS
subprocess's JSON stdout are gathered in `dispatch`. -/
structure NotifMeta where
  tts_triggered : Bool
  message : Option String
  personalized : Bool
  dispatch : Option DispatchResult
  error : Option String
deriving DecidableEq

/-- The parsed JSON event payload; only the `message` field is inspected. -/
structure InputData where
  message : Option String
deriving DecidableEq

/-- One entry of the notification log as written by `main`. -/
structure LogEntry where
  message : Option String
  timestamp : String
  tts : Option NotifMeta
deriving DecidableEq

/-- Environment for one `notification.py` invocation, beyond the TTS `Env`. -/
structure NotifEnv where
  /-- The parse outcome of stdin: `none` when `json.loads` raises. -/
  stdin : Option InputData
  /-- The `--notify` flag was passed. -/
  notify : Bool
  /-- Creating the `logs` directory raises. -/
  logMkdirFails : Bool
  /-- Opening or reading the existing log file raises. -/
  logReadFails : Bool
  /-- The parsed existing log; `none` when the file is absent or unparseable
  (the code then starts from the empty list). -/
  priorLog : Option (List LogEntry)
  /-- Writing the log back raises (the write is then lost). -/
  logWriteFails : Bool
  /-- Timestamp `datetime.now().isoformat()`. -/
  now : String
  /-- Name from `ENGINEER_NAME` (or the `USER` fallback), stripped; `none` when empty. -/
  engineerName : Option String
  /-- Whether `random.random() < 0.3` for this invocation. -/
  randPersonal : Bool
  /-- Whether `utils/tts/cached_tts.py` exists. -/
  cachedScript : Bool
  /-- The TTS subprocess exceeds its 10-second timeout. -/
  announceTimeout : Bool

/-- Embeds the hook's own `get_tts_script_path` (`notification.py`, lines 25-57): prefer the
cached wrapper, then the credential-gated direct scripts. -/
def notif_tts_script (nenv : NotifEnv) (env : Env) : Option String :=
  if nenv.cachedScript then some "cached_tts.py"
  else if env.elevenKey && env.elevenScript then some "elevenlabs_tts.py"
  else if env.openaiKey && env.openaiScript then some "openai_tts.py"
  else if env.systemScript then some "system_voice_tts.py"
  else none

/-- Embeds `announce_notification()` (lines 60-115). `tts_triggered` is set to `True`
as soon as a TTS script path is found, before the subprocess is run; the
subprocess's JSON stdout is merged in only when it exits 0 with output.
Only the cached wrapper prints JSON, so the merge is modelled for it alone. -/
def announce_notification (nenv : NotifEnv) (env : Env) : NotifMeta :=
  let base : NotifMeta :=
    { tts_triggered := false, message := none, personalized := false,
      dispatch := none, error := none }
  match notif_tts_script nenv env with
  | none => base
  | some script =>
    let personalized := nenv.engineerName.isSome && nenv.randPersonal
    let msg := match nenv.engineerName with
      | some n =>
          if nenv.randPersonal then n ++ ", your agent needs your input"
          else "Your agent needs your input"
      | none => "Your agent needs your input"
    let m1 := { base with message := some msg, personalized := personalized,
                          tts_triggered := true }
    if nenv.announceTimeout then { m1 with error := some "TTS timeout" }
    else if script = "cached_tts.py" then
      match cached_tts_cli env [msg, "--json"] with
      | (0, [r]) => { m1 with dispatch := some r }
      | _ => m1
    else m1

/-- Embeds `main()` of `notification.py` (lines 118-166), starting after argument
parsing (which depends only on `argv`, not on stdin). Returns the process
exit code and the final contents written to `logs/notification.json`
(`none` when the file is not (re)written). Every exception raised after the
stdin parse is caught by the trailing `except Exception` and also exits 0. -/
def notification_main (nenv : NotifEnv) (env : Env) :
    Nat × Option (List LogEntry) :=
  match nenv.stdin with
  | none => (0, none)
  | some d =>
    if nenv.logMkdirFails then (0, none)
    else if nenv.logReadFails then (0, none)
    else
      let logData := nenv.priorLog.getD []
      let withTts := nenv.notify &&
        d.message != some "Claude is waiting for your input"
      let entry : LogEntry :=
        { message := d.message, timestamp := nenv.now,
          tts := if withTts then some (announce_notification nenv env) else none }
      if nenv.logWriteFails then (0, none)
      else (0, some (logData ++ [entry]))

/-! ## Crash model of the cache write (`generate_and_cache_audio`, 139-140) -/

/-- A filesystem mapping paths to file contents. -/
def FsState := String → Option Bytes

/-- Primitive filesystem steps of a Python file write. -/
inductive FsOp where
  /-- Step `open(path, 'wb')`: create (or truncate to) an empty file. -/
  | create (path : String)
  /-- Step `f.write(data)`: append `data` to the open file. -/
  | writeAll (path : String) (data : Bytes)
deriving DecidableEq

/-- Apply one filesystem step. -/
def runOp (s : FsState) : FsOp → FsState
  | FsOp.create p => fun q => if q = p then some [] else s q
  | FsOp.writeAll p d => fun q => if q = p then (s p).map (· ++ d) else s q

/-- Apply a sequence of filesystem steps. -/
def runOps (s : FsState) (ops : List FsOp) : FsState := ops.foldl runOp s

/-- The step sequence of the cache write in `generate_and_cache_audio`
(lines 139-140): `open(audio_path, 'wb')` directly on the final cache path,
then a single write of the response body. There is no temporary file and no
rename. -/
def cache_write_ops (path : String) (data : Bytes) : List FsOp :=
  [FsOp.create path, FsOp.writeAll path data]

/-- Embeds `Path.exists()` as used by the cache lookup: any file at the path counts. -/
def existsCheck (s : FsState) (p : String) : Bool := (s p).isSome

/-- The empty filesystem. -/
def emptyFs : FsState := fun _ => none

/-! ## Derived notions and concrete environments used by the theorems -/

/-- Decidable equality of `Except` values, component-wise. -/
instance {ε α : Type} [DecidableEq ε] [DecidableEq α] :
    DecidableEq (Except ε α) := fun x y =>
  match x, y with
  | Except.ok a, Except.ok b =>
      if h : a = b then isTrue (by rw [h])
      else isFalse (by intro hc; cases hc; exact h rfl)
  | Except.error a, Except.error b =>
      if h : a = b then isTrue (by rw [h])
      else isFalse (by intro hc; cases hc; exact h rfl)
  | Except.ok _, Except.error _ => isFalse (by intro hc; cases hc)
  | Except.error _, Except.ok _ => isFalse (by intro hc; cases hc)

/-- Replay the cache-file effects of a trace onto the set of cache files. -/
def applyEvent (files : String → Bool) : Event → (String → Bool)
  | Event.cacheWrite p _ => fun q => if q = p then true else files q
  | Event.deleteFile p => fun q => if q = p then false else files q
  | _ => files

/-- The environment after a `speak_with_cache` run whose trace was `tr`:
only the cache directory is shared state between runs. -/
def afterTrace (env : Env) (tr : List Event) : Env :=
  { env with cacheFiles := tr.foldl applyEvent env.cacheFiles }

/-- The `cache_hit` field of a run's result, when no exception escaped. -/
def resultCacheHit (x : Except PyErr DispatchResult × List Event) : Option Bool :=
  match x.1 with
  | Except.ok r => some r.cache_hit
  | Except.error _ => none

/-- The `tts_backend` field of a run's result, when no exception escaped. -/
def resultBackend (x : Except PyErr DispatchResult × List Event) :
    Option (Option String) :=
  match x.1 with
  | Except.ok r => some r.tts_backend
  | Except.error _ => none

/-- The digest of a text, bounded: the pigeonhole target for C5. -/
def digestFin (t : String) : Fin 16 → Fin 256 := fun i =>
  ⟨(md5 (encodeUtf8 t)).getD i 0 % 256, Nat.mod_lt _ (by norm_num)⟩

/-- A bare environment: no credentials, no scripts, no cache files, every
player fails, the interpreter and filesystem work. -/
def baseEnv : Env :=
  { elevenKey := false, openaiKey := false, voiceIdVar := none,
    elevenScript := false, openaiScript := false, systemScript := false,
    mkdirFails := false, cacheFiles := fun _ => false,
    playCached := fun _ => false, playGenerated := fun _ => false,
    elevenResponse := none, python3Present := true, subprocOk := true }

/-- C3's scenario: a cache entry exists but will not play, and the ElevenLabs
backend is available and succeeds. -/
def envC3 : Env :=
  { baseEnv with elevenKey := true, cacheFiles := fun _ => true,
                 playCached := fun _ => false, playGenerated := fun _ => true,
                 elevenResponse := some [7] }

/-- C4's scenario: no credentials, no cache entry, only the system-voice
script on disk, and the fallback subprocess fails (produces no output). -/
def envC4 : Env :=
  { baseEnv with systemScript := true, subprocOk := false }

/-- C6's counterexample scenario: warm cache whose playback fails, with the
premium backend configured. -/
def envC6 : Env :=
  { baseEnv with elevenKey := true, cacheFiles := fun _ => true,
                 playCached := fun _ => false, playGenerated := fun _ => true,
                 elevenResponse := some [9] }

/-- C6's witness scenario: warm cache whose playback succeeds. -/
def envC6w : Env :=
  { baseEnv with cacheFiles := fun _ => true, playCached := fun _ => true }

/-- C7's counterexample scenario: premium unavailable, system voice on disk,
and a playable cache entry. -/
def envC7 : Env :=
  { baseEnv with systemScript := true, cacheFiles := fun _ => true,
                 playCached := fun _ => true }

/-- C7's witness scenario: premium unavailable, OpenAI and system scripts
available, cold cache. -/
def envC7w : Env :=
  { baseEnv with openaiKey := true, openaiScript := true, systemScript := true }

/-- C8's witness scenario: premium configured and succeeding on a cold cache. -/
def envC8 : Env :=
  { baseEnv with elevenKey := true, elevenResponse := some [7],
                 playGenerated := fun _ => true }

/-- C10's scenario: only the system-voice backend available. -/
def envC10 : Env :=
  { baseEnv with systemScript := true }

/-- The dispatch result of `envC10` on the message `"hello"`. -/
def rC10 : DispatchResult :=
  { cache_hit := false,
    cache_file := some (get_cached_audio_path envC10 "hello").render,
    tts_backend := some "system_voice_tts", voice_id := none,
    fallback_used := true }

/-- The trace of `envC10` on the message `"hello"`. -/
def trC10 : List Event := [Event.subproc "system_voice_tts.py" true]

/-- A notification-hook environment with unparseable stdin. -/
def nenvC9 : NotifEnv :=
  { stdin := none, notify := true, logMkdirFails := false,
    logReadFails := false, priorLog := none, logWriteFails := false,
    now := "2026-01-01T00:00:00", engineerName := none, randPersonal := false,
    cachedScript := true, announceTimeout := false }

/-- C4's notification-hook environment: valid stdin, cached wrapper on disk. -/
def nenvC4 : NotifEnv :=
  { nenvC9 with stdin := some { message := some "hi" } }

/-! ## Theorems -/

/-- Each serialized word byte is below 256. -/
theorem wordLE_lt (w : Nat) : ∀ b ∈ wordLE w, b < 256 := by
  intro b hb
  simp only [wordLE, List.mem_cons, List.not_mem_nil, or_false] at hb
  rcases hb with rfl | rfl | rfl | rfl <;> exact Nat.mod_lt _ (by norm_num)

/-- An MD5 digest has exactly 16 bytes. -/
theorem md5_length (msg : Bytes) : (md5 msg).length = 16 := by
  simp [md5, wordLE]

/-- Every byte of an MD5 digest is below 256. -/
theorem md5_lt (msg : Bytes) : ∀ b ∈ md5 msg, b < 256 := by
  intro b hb
  simp only [md5, List.mem_append] at hb
  rcases hb with ((h | h) | h) | h <;> exact wordLE_lt _ _ h

/-- Two texts with pointwise-equal bounded digests have equal MD5 digests. -/
theorem md5_eq_of_digestFin_eq {t1 t2 : String}
    (h : digestFin t1 = digestFin t2) :
    md5 (encodeUtf8 t1) = md5 (encodeUtf8 t2) := by
  apply List.ext_getElem (by rw [md5_length, md5_length])
  intro i h1 h2
  have hi : i < 16 := by rw [md5_length] at h1; exact h1
  have hc := congrFun h ⟨i, hi⟩
  simp only [digestFin, Fin.mk.injEq] at hc
  have e1 : (md5 (encodeUtf8 t1)).getD i 0 = (md5 (encodeUtf8 t1))[i] :=
    List.getD_eq_getElem _ _ h1
  have e2 : (md5 (encodeUtf8 t2)).getD i 0 = (md5 (encodeUtf8 t2))[i] :=
    List.getD_eq_getElem _ _ h2
  have b1 : (md5 (encodeUtf8 t1))[i] < 256 :=
    md5_lt _ _ (List.getElem_mem h1)
  have b2 : (md5 (encodeUtf8 t2))[i] < 256 :=
    md5_lt _ _ (List.getElem_mem h2)
  rw [e1, e2, Nat.mod_eq_of_lt b1, Nat.mod_eq_of_lt b2] at hc
  exact hc

/-- C5, counterexample: `get_cache_key` is not injective — MD5 has only
`2^128` possible digests while there are infinitely many texts, so the claim
"`key_for(t1) != key_for(t2)` whenever `t1 != t2`" is false. -/
theorem C5_counterexample :
    ¬ (∀ t1 t2 : String, t1 ≠ t2 → get_cache_key t1 ≠ get_cache_key t2) := by
  intro h
  obtain ⟨t1, t2, hne, heq⟩ := Finite.exists_ne_map_eq_of_infinite digestFin
  exact h t1 t2 hne
    (by unfold get_cache_key; rw [md5_eq_of_digestFin_eq heq])

/-- C5 (amended): `get_cache_key` is a pure function of the raw UTF-8 bytes
of the text (equal bytes give equal keys, hence it is deterministic and
stable across process restarts), no case or whitespace normalization is
performed, and it is verbatim MD5 (the RFC 1321 test vector); distinct texts
yield distinct keys only up to MD5 collisions, which exist. -/
theorem C5_amended :
    (∀ t1 t2 : String, encodeUtf8 t1 = encodeUtf8 t2 →
       get_cache_key t1 = get_cache_key t2) ∧
    get_cache_key "a" ≠ get_cache_key "A" ∧
    get_cache_key "hello world" ≠ get_cache_key "helloworld" ∧
    get_cache_key "abc" = "900150983cd24fb0d6963f7d28e17f72" :=
  ⟨fun _ _ h => by unfold get_cache_key; rw [h],
   by decide, by decide, by decide⟩

/-- C5, witness: the amended theorem applied at a concrete input. -/
theorem C5_witness : get_cache_key "Work complete!" = get_cache_key "Work complete!" :=
  C5_amended.1 "Work complete!" "Work complete!" rfl

/-- C1, counterexample: interrupting the cache write after `open(audio_path,
'wb')` but before the body is written leaves an (empty) file at the final
cache path, and the existence check treats any file there as a valid entry —
the write is not all-or-nothing and uses no temporary-file-plus-rename. -/
theorem C1_counterexample :
    existsCheck
      (runOps emptyFs ((cache_write_ops "cache/v/k.mp3" [1, 2, 3]).take 1))
      "cache/v/k.mp3" = true := by decide

/-- C1 (amended): the cache write opens the final cache path directly and
then writes the response body; after the interrupted prefix the existence
check already reports a valid entry whose content is not the intended bytes,
while only the completed sequence stores the full payload. -/
theorem C1_amended (path : String) (data : Bytes) (h : data ≠ []) :
    existsCheck (runOps emptyFs ((cache_write_ops path data).take 1)) path = true ∧
    runOps emptyFs ((cache_write_ops path data).take 1) path ≠ some data ∧
    runOps emptyFs (cache_write_ops path data) path = some data := by
  refine ⟨?_, ?_, ?_⟩ <;>
    simp [existsCheck, runOps, runOp, cache_write_ops, emptyFs]
  exact h

/-- C1, witness: the amended theorem at a concrete path and payload. -/
theorem C1_witness :
    existsCheck (runOps emptyFs ((cache_write_ops "p.mp3" [1]).take 1)) "p.mp3" = true ∧
    runOps emptyFs ((cache_write_ops "p.mp3" [1]).take 1) "p.mp3" ≠ some [1] ∧
    runOps emptyFs (cache_write_ops "p.mp3" [1]) "p.mp3" = some [1] :=
  C1_amended "p.mp3" [1] (by decide)

/-- C2, counterexample: when creating the voice cache directory raises an
`OSError` (`Path.mkdir` in `get_cache_dir` is outside every `try`), the
exception escapes `speak_with_cache` — the I/O failure is not captured in the
returned dictionary. -/
theorem C2_counterexample :
    (speak_with_cache { baseEnv with mkdirFails := true } "hi").1 =
      Except.error PyErr.osError := by decide

/-- C2 (amended): provided the cache directory can be created and the
`python3` interpreter exists, `speak_with_cache` returns a result dictionary
for every text and environment — synthesis failures, playback failures,
timeouts and subprocess errors are all captured in the result; but an
`OSError` from the cache-directory creation (or a `FileNotFoundError` for the
fallback interpreter) propagates to the caller. -/
theorem C2_amended (env : Env) (text : String)
    (h1 : env.mkdirFails = false) (h2 : env.python3Present = true) :
    ∃ r, (speak_with_cache env text).1 = Except.ok r := by
  unfold speak_with_cache
  simp only [h1, h2, Bool.false_eq_true, if_false, if_true]
  repeat' split
  all_goals exact ⟨_, rfl⟩

/-- C2, witness: the amended theorem at a concrete environment and text. -/
theorem C2_witness : ∃ r, (speak_with_cache baseEnv "hi").1 = Except.ok r :=
  C2_amended baseEnv "hi" rfl rfl

/-- C3, counterexample: cache entry present, its playback fails, ElevenLabs
then synthesizes and plays successfully — but the returned dictionary still
has `cache_hit = True` (the flag set in the cache block is never reset), not
`cache_hit = false` as claimed. -/
theorem C3_counterexample :
    resultCacheHit (speak_with_cache envC3 "hi") = some true ∧
    resultBackend (speak_with_cache envC3 "hi") = some (some "elevenlabs") := by
  decide

/-- C3 (amended): on a cache entry whose playback fails, `speak_with_cache`
does not return early, deletes nothing, and regenerates via ElevenLabs; when
synthesis and the second playback succeed the result reports
`tts_backend = "elevenlabs"` — but `cache_hit` remains `true`, because the
flag set during the cache attempt is not reset on the regeneration path. -/
theorem C3_amended (env : Env) (text : String) (bs : Bytes)
    (hmk : env.mkdirFails = false)
    (hhit : env.cacheFiles (get_cached_audio_path env text).render = true)
    (hplay1 : env.playCached (get_cached_audio_path env text).render = false)
    (hkey : env.elevenKey = true)
    (hresp : env.elevenResponse = some bs)
    (hplay2 : env.playGenerated (get_cached_audio_path env text).render = true) :
    speak_with_cache env text =
      (Except.ok
        { cache_hit := true,
          cache_file := some (get_cached_audio_path env text).render,
          tts_backend := some "elevenlabs",
          voice_id := some (voiceId env),
          fallback_used := false },
       [Event.play (get_cached_audio_path env text).render false,
        Event.net,
        Event.cacheWrite (get_cached_audio_path env text).render bs,
        Event.play (get_cached_audio_path env text).render true]) ∧
    ∀ q, Event.deleteFile q ∉ (speak_with_cache env text).2 := by
  have he : speak_with_cache env text =
      (Except.ok
        { cache_hit := true,
          cache_file := some (get_cached_audio_path env text).render,
          tts_backend := some "elevenlabs",
          voice_id := some (voiceId env),
          fallback_used := false },
       [Event.play (get_cached_audio_path env text).render false,
        Event.net,
        Event.cacheWrite (get_cached_audio_path env text).render bs,
        Event.play (get_cached_audio_path env text).render true]) := by
    unfold speak_with_cache generate_and_cache_audio
    simp [hmk, hhit, hplay1, hkey, hresp, hplay2]
  refine ⟨he, ?_⟩
  intro q
  rw [he]
  simp

/-- C3, witness: the amended theorem at a concrete environment. -/
theorem C3_witness :
    speak_with_cache envC3 "hi" =
      (Except.ok
        { cache_hit := true,
          cache_file := some (get_cached_audio_path envC3 "hi").render,
          tts_backend := some "elevenlabs",
          voice_id := some (voiceId envC3),
          fallback_used := false },
       [Event.play (get_cached_audio_path envC3 "hi").render false,
        Event.net,
        Event.cacheWrite (get_cached_audio_path envC3 "hi").render [7],
        Event.play (get_cached_audio_path envC3 "hi").render true]) :=
  (C3_amended envC3 "hi" [7] rfl rfl rfl rfl rfl rfl).1

/-- C4, counterexample: with no credentials, no cache entry and only the
system-voice script on disk, a fallback subprocess that fails (produces no
output, `envC4.subprocOk = false`) still yields `tts_backend =
"system_voice_tts"` — not `None` — and the notification hook sets
`tts_triggered = True` before the subprocess even runs. -/
theorem C4_counterexample :
    resultBackend (speak_with_cache envC4 "Work complete!") =
      some (some "system_voice_tts") ∧
    (announce_notification nenvC4 envC4).tts_triggered = true := by
  decide

/-- C4 (amended): with no credentials and no cache entry, `speak_with_cache`
attempts only the local system backend; the `tts_backend` field records the
backend last attempted, not whether it produced output — it is
`"system_voice_tts"` whenever the script exists (regardless of the
subprocess's fate, `subprocOk`), and `None` only when no script is found. -/
theorem C4_amended (env : Env) (text : String)
    (hmk : env.mkdirFails = false)
    (h11 : env.elevenKey = false)
    (hoai : env.openaiKey = false)
    (hmiss : env.cacheFiles (get_cached_audio_path env text).render = false)
    (hpy : env.python3Present = true) :
    (env.systemScript = true →
      speak_with_cache env text =
        (Except.ok { cache_hit := false,
                     cache_file := some (get_cached_audio_path env text).render,
                     tts_backend := some "system_voice_tts",
                     voice_id := none, fallback_used := true },
         [Event.subproc "system_voice_tts.py" env.subprocOk])) ∧
    (env.systemScript = false →
      speak_with_cache env text =
        (Except.ok { cache_hit := false,
                     cache_file := some (get_cached_audio_path env text).render,
                     tts_backend := none,
                     voice_id := none, fallback_used := true },
         [])) := by
  constructor <;> intro hs <;>
    · unfold speak_with_cache get_tts_script_path
      simp [hmk, h11, hoai, hmiss, hpy, hs,
            show stem "system_voice_tts.py" = "system_voice_tts" from by decide]

/-- C4, witness: the amended theorem at the concrete scenario environment. -/
theorem C4_witness :
    speak_with_cache envC4 "Work complete!" =
      (Except.ok { cache_hit := false,
                   cache_file := some (get_cached_audio_path envC4 "Work complete!").render,
                   tts_backend := some "system_voice_tts",
                   voice_id := none, fallback_used := true },
       [Event.subproc "system_voice_tts.py" envC4.subprocOk]) :=
  (C4_amended envC4 "Work complete!" rfl rfl rfl rfl rfl).1 rfl

/-- C6, counterexample: a cache entry exists for the text, yet (because its
playback fails and the premium key is set) the call performs a network call —
"zero network calls whenever an entry exists" is false without assuming the
cached playback succeeds. -/
theorem C6_counterexample :
    envC6.cacheFiles (get_cached_audio_path envC6 "hi").render = true ∧
    Event.net ∈ (speak_with_cache envC6 "hi").2 := by decide

/-- C6 (amended): when a cache entry exists and its playback succeeds, the
call takes exactly the cached-playback path (`cache_hit = true`, backend
`"cache"`, a single playback effect, no network call, no subprocess), leaves
the cache unchanged, and a second call in the resulting environment behaves
identically. -/
theorem C6_amended (env : Env) (text : String)
    (hmk : env.mkdirFails = false)
    (hhit : env.cacheFiles (get_cached_audio_path env text).render = true)
    (hplay : env.playCached (get_cached_audio_path env text).render = true) :
    speak_with_cache env text =
      (Except.ok
        { cache_hit := true,
          cache_file := some (get_cached_audio_path env text).render,
          tts_backend := some "cache",
          voice_id := some (get_cached_audio_path env text).voice,
          fallback_used := false },
       [Event.play (get_cached_audio_path env text).render true]) ∧
    Event.net ∉ (speak_with_cache env text).2 ∧
    (∀ s ok, Event.subproc s ok ∉ (speak_with_cache env text).2) ∧
    speak_with_cache (afterTrace env (speak_with_cache env text).2) text =
      speak_with_cache env text := by
  have he : speak_with_cache env text =
      (Except.ok
        { cache_hit := true,
          cache_file := some (get_cached_audio_path env text).render,
          tts_backend := some "cache",
          voice_id := some (get_cached_audio_path env text).voice,
          fallback_used := false },
       [Event.play (get_cached_audio_path env text).render true]) := by
    unfold speak_with_cache
    simp [hmk, hhit, hplay]
  refine ⟨he, ?_, ?_, ?_⟩
  · rw [he]; simp
  · intro s ok; rw [he]; simp
  · have henv : afterTrace env (speak_with_cache env text).2 = env := by
      rw [he]; rfl
    rw [henv]

/-- C6, witness: the amended theorem at a concrete warm-cache environment. -/
theorem C6_witness :
    speak_with_cache envC6w "hi" =
      (Except.ok
        { cache_hit := true,
          cache_file := some (get_cached_audio_path envC6w "hi").render,
          tts_backend := some "cache",
          voice_id := some (get_cached_audio_path envC6w "hi").voice,
          fallback_used := false },
       [Event.play (get_cached_audio_path envC6w "hi").render true]) :=
  (C6_amended envC6w "hi" rfl rfl rfl).1

/-- C7, counterexample: premium unavailable, system voice on disk, but a
playable cache entry exists — the result reports `"cache"`, not the
highest-priority available backend (`system_voice_tts`) that the claim's
fixed order prescribes. -/
theorem C7_counterexample :
    resultBackend (speak_with_cache envC7 "x") = some (some "cache") ∧
    get_tts_script_path envC7 = some "system_voice_tts.py" := by decide

/-- C7 (amended): when the premium backend is unavailable the result never
reports `"elevenlabs"`; and on a cache miss (with a working filesystem and
interpreter) it reports exactly the stem of the highest-priority available
script in the order OpenAI > system voice, or `None` when no script is
available. A played cache entry reports `"cache"` instead. -/
theorem C7_amended :
    (∀ (env : Env) (text : String), env.elevenKey = false →
      resultBackend (speak_with_cache env text) ≠ some (some "elevenlabs")) ∧
    (∀ (env : Env) (text : String), env.elevenKey = false →
      env.mkdirFails = false →
      env.cacheFiles (get_cached_audio_path env text).render = false →
      env.python3Present = true →
      resultBackend (speak_with_cache env text) =
        some (Option.map stem (get_tts_script_path env))) := by
  constructor
  · intro env text hkey
    have s1 : stem "openai_tts.py" = "openai_tts" := by decide
    have s2 : stem "system_voice_tts.py" = "system_voice_tts" := by decide
    unfold speak_with_cache get_tts_script_path
    simp only [hkey, Bool.false_and, Bool.and_false, if_false,
               Bool.false_eq_true]
    repeat' split
    all_goals simp_all [resultBackend]
    all_goals
      rename_i heq h1x h2x
      split at heq <;> simp_all
  · intro env text hkey hmk hmiss hpy
    unfold speak_with_cache get_tts_script_path
    simp [hkey, hmk, hmiss, hpy]
    split
    · rename_i heq
      rw [heq]
      simp [resultBackend]
    · rename_i s heq
      rw [heq]
      simp [resultBackend]

/-- C7, witness: both parts of the amended theorem at a concrete
premium-unavailable environment. -/
theorem C7_witness :
    (resultBackend (speak_with_cache envC7w "x") ≠ some (some "elevenlabs")) ∧
    resultBackend (speak_with_cache envC7w "x") =
      some (Option.map stem (get_tts_script_path envC7w)) :=
  ⟨C7_amended.1 envC7w "x" rfl, C7_amended.2 envC7w "x" rfl rfl rfl rfl⟩

/-- C8: every cache-file write performed by `speak_with_cache`, in any
environment, carries the ElevenLabs API's response body (and so requires the
ElevenLabs key) and targets the voice-namespaced content-addressed path; the
secondary-cloud and system-voice fallbacks are invoked as subprocesses and
never write to the cache. -/
theorem C8_theorem (env : Env) (text : String) (p : String) (d : Bytes)
    (h : Event.cacheWrite p d ∈ (speak_with_cache env text).2) :
    env.elevenKey = true ∧ env.elevenResponse = some d ∧
    p = (get_cached_audio_path env text).render := by
  unfold speak_with_cache generate_and_cache_audio at h
  repeat' split at h
  all_goals simp_all
  all_goals repeat' split at h
  all_goals simp_all

/-- C8, witness: the invariant applied to a run that does write the cache. -/
theorem C8_witness :
    envC8.elevenKey = true ∧ envC8.elevenResponse = some [7] ∧
    (get_cached_audio_path envC8 "hi").render =
      (get_cached_audio_path envC8 "hi").render :=
  C8_theorem envC8 "hi" (get_cached_audio_path envC8 "hi").render [7] (by decide)

/-- C9: `notification.py`'s `main` exits 0 for every stdin parse outcome and
downstream failure, and when stdin is not valid JSON nothing is written to
the log file (the parse precedes every filesystem operation). -/
theorem C9_theorem (nenv : NotifEnv) (env : Env) :
    (notification_main nenv env).1 = 0 ∧
    (nenv.stdin = none → (notification_main nenv env).2 = none) := by
  constructor
  · unfold notification_main
    repeat' split
    all_goals rfl
  · intro h
    unfold notification_main
    rw [h]

/-- C9, witness: the theorem at a concrete malformed-stdin environment. -/
theorem C9_witness :
    (notification_main nenvC9 baseEnv).1 = 0 ∧
    (notification_main nenvC9 baseEnv).2 = none :=
  ⟨(C9_theorem nenvC9 baseEnv).1, (C9_theorem nenvC9 baseEnv).2 rfl⟩

/-- C10, counterexample: invoked with `--json` as its only argument there are
no message arguments, yet (with a system-voice backend available) the process
exits 0, not 1 — the guard only checks `len(sys.argv) > 1`, so a lone flag
still dispatches the empty message. -/
theorem C10_counterexample :
    (cached_tts_cli envC10 ["--json"]).1 = 0 ∧
    (["--json"] : List String).filter (fun a => a != "--json") = [] := by
  decide

/-- C10 (amended): with no arguments at all the CLI exits 1; with at least
one argument (even just `--json`) it dispatches the space-joined non-flag
arguments (`--json` excluded from the spoken message), exits 0 iff the
returned metadata's `tts_backend` is non-null, printing the metadata as a
single JSON object when `--json` is present; if the dispatch raises, the
interpreter exits 1 with no JSON output. -/
theorem C10_amended :
    (∀ env : Env, cached_tts_cli env [] = (1, [])) ∧
    (∀ (env : Env) (args : List String) (r : DispatchResult) (tr : List Event),
      args ≠ [] →
      speak_with_cache env (spoken_message args) = (Except.ok r, tr) →
      cached_tts_cli env args =
        ((if r.tts_backend.isSome then 0 else 1),
         if args.contains "--json" then [r] else [])) ∧
    (∀ (env : Env) (args : List String) (e : PyErr) (tr : List Event),
      args ≠ [] →
      speak_with_cache env (spoken_message args) = (Except.error e, tr) →
      cached_tts_cli env args = (1, [])) := by
  refine ⟨fun env => rfl, ?_, ?_⟩
  · intro env args r tr hne heq
    unfold cached_tts_cli
    rw [if_pos (List.length_pos.mpr hne), heq]
  · intro env args e tr hne heq
    unfold cached_tts_cli
    rw [if_pos (List.length_pos.mpr hne), heq]

/-- C10, witness: the amended contract at the empty and one-message calls. -/
theorem C10_witness :
    cached_tts_cli envC10 [] = (1, []) ∧
    cached_tts_cli envC10 ["hello"] =
      ((if rC10.tts_backend.isSome then 0 else 1),
       if (["hello"] : List String).contains "--json" then [rC10] else []) :=
  ⟨C10_amended.1 envC10,
   C10_amended.2.1 envC10 ["hello"] rC10 trC10 (by decide) (by decide)⟩
